import Mathlib

/-!
Shallow embedding of the fastapi_clawcloud service:
  - `src/app/utils.py` — manifest extraction (`extract_m3u8`, `handle_response`)
    and stream download glue,
  - `src/app/utils_compression_bkp.py` — the transcoder (`compress_video`),
  - `src/app/main.py` — the `/process` and `/tiktok/process` handlers.

External effects (the browser, ffmpeg, the filesystem) are modelled as
explicit environment parameters; the control flow of each Python function is
translated branch by branch.
-/

namespace FastapiClaw

/-- Python substring membership `needle in hay`, on lists of characters:
`needle` is an infix of `hay`. -/
def infixCheck (needle : List Char) : List Char → Bool
  | [] => needle.isEmpty
  | c :: cs => needle.isPrefixOf (c :: cs) || infixCheck needle cs

/-- Python `needle in hay` on strings (substring containment). -/
def strIn (needle hay : String) : Bool :=
  infixCheck needle.data hay.data

/-! ### utils.py — manifest extraction -/

/-- The response observer of `utils.py` lines 29-34: append the response URL
to the accumulator when it contains `".m3u8"`; duplicates are not filtered. -/
def handle_response (links : List String) (url : String) : List String :=
  if strIn ".m3u8" url then links ++ [url] else links

/-- The accumulator contents after the observer has seen the given response
URLs in order, starting empty (one browser session). -/
def collectLinks (responses : List String) : List String :=
  responses.foldl handle_response []

/-- Outcome of one browser attempt: either the attempt body raised
(`PlaywrightTimeoutError` on navigation, or any other exception), or the
session completed normally having observed the given response URLs. -/
inductive AttemptOutcome where
  | errored
  | completed (responses : List String)
deriving DecidableEq

/-- The arguments `try_navigate` is called with: the navigation timeout in
milliseconds and the attempt number. -/
structure AttemptCall where
  timeout_ms : Nat
  attempt : Nat
deriving DecidableEq

/-- `try_navigate` of `utils.py` lines 16-71: on an exception both `except`
arms return `None`; otherwise the accumulated list is returned. -/
def try_navigate : AttemptOutcome → Option (List String)
  | .errored => none
  | .completed rs => some (collectLinks rs)

/-- The retry arm of `extract_m3u8` (lines 77-79): run attempt 2 with a
90000 ms timeout and return its list, or `[]` when it returned `None`.
The second component records the calls made. -/
def extract_retry (env : AttemptCall → AttemptOutcome) :
    List String × List AttemptCall :=
  ((try_navigate (env ⟨90000, 2⟩)).getD [], [⟨60000, 1⟩, ⟨90000, 2⟩])

/-- `extract_m3u8` of `utils.py` lines 73-79, with the trace of
`try_navigate` calls: attempt 1 uses a 60000 ms timeout; its result is
returned only when it `is not None and` truthy (a non-empty list), otherwise
the retry arm runs. `env` gives the outcome of each browser attempt. -/
def extract_m3u8_run (env : AttemptCall → AttemptOutcome) :
    List String × List AttemptCall :=
  match try_navigate (env ⟨60000, 1⟩) with
  | some l => if l.isEmpty then extract_retry env else (l, [⟨60000, 1⟩])
  | none => extract_retry env

/-- The list `extract_m3u8` returns to its caller. -/
def extract_m3u8 (env : AttemptCall → AttemptOutcome) : List String :=
  (extract_m3u8_run env).1

/-! ### utils_compression_bkp.py — compress_video -/

/-- Environment of one `compress_video` run: whether the input path exists,
the input and output sizes in bytes, whether `ffmpeg.probe` succeeds
(`get_video_duration` returns a duration), and the encode's exit code.
The source compares sizes after dividing both by `1024 * 1024` in float;
division by a power of two is order-preserving, so the comparison is made
directly on byte counts here. -/
structure CompressEnv where
  inputExists : Bool
  inputSize : Nat
  probeOk : Bool
  encodeReturncode : Nat
  outputSize : Nat

/-- Result of a `compress_video` run: the returned boolean and whether the
input file is still on disk when the function returns. -/
structure CompressResult where
  ok : Bool
  inputRemains : Bool
deriving DecidableEq

/-- `compress_video` of `utils_compression_bkp.py` lines 125-195:
missing input → `False` (lines 139-141); probe failure → `False`, input kept
(lines 146-149); non-zero encode exit → `False`, input kept (lines 175-177);
otherwise the input is removed (lines 185-186) and only then the size check
runs: `output_size >= input_size` → `False` (lines 188-190), else `True`. -/
def compress_video (e : CompressEnv) : CompressResult :=
  if !e.inputExists then { ok := false, inputRemains := false }
  else if !e.probeOk then { ok := false, inputRemains := true }
  else if e.encodeReturncode ≠ 0 then { ok := false, inputRemains := true }
  else if e.outputSize ≥ e.inputSize then { ok := false, inputRemains := false }
  else { ok := true, inputRemains := false }

/-! ### main.py — /process handler -/

/-- `DATA_DIR` of `main.py` line 26. -/
def DATA_DIR : String := "/tmp"

/-- `CONFIG_DIR` of `main.py` line 25. -/
def CONFIG_DIR : String := "/app/config"

/-- Whether a string starts with the path separator. -/
def startsWithSlash (s : String) : Bool :=
  match s.data with
  | [] => false
  | c :: _ => c == '/'

/-- Whether a string ends with the path separator. -/
def endsWithSlash (s : String) : Bool :=
  match s.data.getLast? with
  | none => false
  | some c => c == '/'

/-- `os.path.join(a, b)` for two components (POSIX): an absolute second
component discards the first; otherwise a separator is inserted unless `a`
is empty or already ends in one. -/
def joinPath (a b : String) : String :=
  if startsWithSlash b then b
  else if a.data.isEmpty || endsWithSlash a then a ++ b
  else a ++ "/" ++ b

/-- What the `/process` handler returns and did: the JSON `status` and
`message` fields, the URL handed to `download_m3u8` (none when the
downloader was never invoked), and the output path holding a file when the
handler returns (none when no file was created or it was removed). -/
structure ProcessResult where
  status : String
  message : String
  downloadedUrl : Option String
  fileOnDisk : Option String
deriving DecidableEq

/-- `process_video` of `main.py` lines 28-50, given the list extraction
produced and the downloader's outcome `downloadOk url output_file`: an empty
list returns the error body before any download; otherwise `m3u8_links[0]`
is downloaded to `{id}_futebol.mp4`, and on failure the partial file is
removed (lines 48-49). -/
def process_video (id : String) (links : List String)
    (downloadOk : String → String → Bool) : ProcessResult :=
  match links with
  | [] =>
    { status := "error", message := "No m3u8 links found after retries.",
      downloadedUrl := none, fileOnDisk := none }
  | u :: _ =>
    let output_file := joinPath (DATA_DIR ++ "/downloads") (id ++ "_futebol.mp4")
    if downloadOk u output_file then
      { status := "success", message := "",
        downloadedUrl := some u, fileOnDisk := some output_file }
    else
      { status := "error", message := "Download failed. Check server logs for details.",
        downloadedUrl := some u, fileOnDisk := none }

/-! ### main.py — /tiktok/process handler -/

/-- The fields of `TikTokRequest` (`main.py` lines 15-22). -/
structure TikTokRequest where
  id : String
  background : String
  foreground : String
  font_1 : String
  font_2 : String
  text_title : String
  text_desc : String

/-- Environment of one `/tiktok/process` run: which paths hold a file when
the request arrives, the ffmpeg exit code and stderr, and whether ffmpeg
left a (possibly partial) file at the output path. -/
structure TikTokEnv where
  fs : String → Bool
  returncode : Nat
  stderr : String
  outputProduced : Bool

/-- The handler's response: an `HTTPException` 404 with its detail, the
success body with the output file, or the error body with its message. -/
inductive TikTokResponse where
  | notFound (detail : String)
  | ok (file : String)
  | err (message : String)
deriving DecidableEq

/-- What the handler returned and did: the response, the argument list given
to `subprocess.run` (none when no subprocess was invoked), and whether the
output path holds a file when the handler returns. -/
structure TikTokResult where
  response : TikTokResponse
  command : Option (List String)
  outputOnDisk : Bool

/-- The input video path of `main.py` line 79. -/
def tiktokInputFile (req : TikTokRequest) : String :=
  joinPath (DATA_DIR ++ "/downloads") (req.id ++ "_futebol.mp4")

/-- The output path of `main.py` line 83. -/
def tiktokOutputFile (req : TikTokRequest) : String :=
  joinPath (DATA_DIR ++ "/tiktok") ("tiktok_" ++ req.id ++ "_futebol.mp4")

/-- The four joined config paths of `main.py` lines 86-89, in the order the
validation loop of line 91 checks them. -/
def assetPaths (req : TikTokRequest) : List String :=
  [joinPath CONFIG_DIR req.background, joinPath CONFIG_DIR req.foreground,
   joinPath CONFIG_DIR req.font_1, joinPath CONFIG_DIR req.font_2]

/-- The `-filter_complex` argument of `main.py` lines 103-108, built by
string concatenation (apostrophes written as escapes). -/
def filterGraph (font_1_path font_2_path text_title text_desc : String) : String :=
  "[1:v]crop=iw/1.0:ih/1.0:(iw-iw/1.0)/2:(ih-ih/1.0)/2,scale=1280:1338[vid];" ++
  "[0:v][vid]overlay=-150:310[tmp];" ++
  "[tmp][2:v]overlay=0:0[base];" ++
  "[base]drawtext=text=\x27GOOOOOOOL\x27:fontfile=\x27" ++ font_1_path ++
  "\x27:fontcolor=white:fontsize=80:x=(w-text_w)/2:y=320[txt1];" ++
  "[txt1]drawtext=text=\x27" ++ text_title ++ "\x27:fontfile=\x27" ++ font_2_path ++
  "\x27:fontcolor=white:fontsize=80:x=(w-text_w)/2:y=420[txt2];" ++
  "[txt2]drawtext=text=\x27" ++ text_desc ++ "\x27:fontfile=\x27" ++ font_2_path ++
  "\x27:fontcolor=white:fontsize=50:x=(w-text_w)/2:y=1600"

/-- The ffmpeg argument list of `main.py` lines 97-111. -/
def ffmpegCommand (req : TikTokRequest) : List String :=
  ["ffmpeg",
   "-i", joinPath CONFIG_DIR req.background,
   "-i", tiktokInputFile req,
   "-i", joinPath CONFIG_DIR req.foreground,
   "-filter_complex",
   filterGraph (joinPath CONFIG_DIR req.font_1) (joinPath CONFIG_DIR req.font_2)
     req.text_title req.text_desc,
   "-c:a", "copy",
   tiktokOutputFile req]

/-- `tiktok_process` of `main.py` lines 72-126: 404 when the input video is
missing (lines 80-81, detail `"Input video not found"`); 404 naming the path
for the first missing config file (lines 91-93); otherwise ffmpeg runs, a
non-zero exit raises and the `except` arm removes any file at the output
path and returns the error body (lines 115-126). -/
def tiktok_process (req : TikTokRequest) (env : TikTokEnv) : TikTokResult :=
  if !env.fs (tiktokInputFile req) then
    { response := .notFound "Input video not found", command := none,
      outputOnDisk := env.fs (tiktokOutputFile req) }
  else
    match (assetPaths req).find? (fun p => !env.fs p) with
    | some p =>
      { response := .notFound ("Config file not found: " ++ p), command := none,
        outputOnDisk := env.fs (tiktokOutputFile req) }
    | none =>
      if env.returncode ≠ 0 then
        { response := .err ("Processing failed: FFmpeg failed: " ++ env.stderr),
          command := some (ffmpegCommand req), outputOnDisk := false }
      else
        { response := .ok (tiktokOutputFile req),
          command := some (ffmpegCommand req), outputOnDisk := env.outputProduced }

/-! ### Spec-side path resolution (for the containment claim) -/

/-- Split a character list on the path separator (Python `s.split("/")`
semantics: a leading or trailing separator yields an empty component). -/
def splitSlash : List Char → List (List Char)
  | [] => [[]]
  | c :: rest =>
    match splitSlash rest with
    | [] => if c == '/' then [[], []] else [[c]]
    | h :: t => if c == '/' then [] :: h :: t else (c :: h) :: t

/-- Resolve a `/`-separated component list the way POSIX path normalisation
does for absolute paths: empty and `.` components vanish, `..` removes the
previous component (at the root it stays at the root). -/
def resolveComps (comps : List (List Char)) : List (List Char) :=
  comps.foldl
    (fun acc c =>
      if c.isEmpty || c = ['.'] then acc
      else if c = ['.', '.'] then acc.dropLast
      else acc ++ [c]) []

/-- The claim's notion of a path lying inside a directory — after resolution
the directory's components are a prefix of the path's components. -/
def resolvesInside (dir path : String) : Bool :=
  (resolveComps (splitSlash dir.data)).isPrefixOf (resolveComps (splitSlash path.data))

/-! ### Helper lemmas -/

/-- A list is a prefix of itself (boolean form). -/
theorem isPrefixOf_self (l : List Char) : l.isPrefixOf l = true := by
  induction l with
  | nil => rfl
  | cons c cs ih => simp [List.isPrefixOf, ih]

/-- `infixCheck` finds the needle at the end of the haystack. -/
theorem infixCheck_append (n m : List Char) : infixCheck n (m ++ n) = true := by
  induction m with
  | nil =>
    cases n with
    | nil => rfl
    | cons c cs => simp [infixCheck, isPrefixOf_self]
  | cons c m ih => simp [infixCheck, ih]

/-- Appending a string to any prefix makes it a substring of the result. -/
theorem strIn_append (s p : String) : strIn p (s ++ p) = true := by
  unfold strIn
  rw [String.data_append]
  exact infixCheck_append p.data s.data

/-- Every URL the observer accumulates contains the manifest suffix. -/
theorem mem_handle_foldl (rs : List String) (acc : List String)
    (h : ∀ u ∈ acc, strIn ".m3u8" u = true) :
    ∀ u ∈ rs.foldl handle_response acc, strIn ".m3u8" u = true := by
  induction rs generalizing acc with
  | nil => simpa using h
  | cons r rs ih =>
    intro u hu
    rw [List.foldl_cons] at hu
    refine ih (handle_response acc r) ?_ u hu
    intro v hv
    by_cases hr : strIn ".m3u8" r = true
    · simp only [handle_response, hr, if_true] at hv
      rcases List.mem_append.1 hv with hv' | hv'
      · exact h v hv'
      · rcases List.mem_singleton.1 hv' with rfl
        exact hr
    · simp only [handle_response, hr, if_false] at hv
      exact h v hv

/-- Every URL in the accumulator of a completed session contains `".m3u8"`. -/
theorem mem_collectLinks (rs : List String) :
    ∀ u ∈ collectLinks rs, strIn ".m3u8" u = true :=
  mem_handle_foldl rs [] (by simp)

/-! ### C1 — transcoder input disposition on failure -/

/-- C1 counterexample: a run whose encode exits zero but whose output (100
bytes) is not smaller than its input (100 bytes) returns failure, yet the
input file has already been deleted, contradicting the claim that a failed
run leaves the input in place. -/
theorem compress_size_check_deletes_input :
    (compress_video ⟨true, 100, true, 0, 100⟩).ok = false ∧
    (compress_video ⟨true, 100, true, 0, 100⟩).inputRemains = false := by
  decide

/-- C1 amended: failures before a successful encode (probe failure or a
non-zero encode exit) leave an existing input file in place, but any run
whose encode exits zero deletes the input before the size check, so a
size-check failure does not leave the input on disk. -/
theorem compress_input_disposition (e : CompressEnv) (h : e.inputExists = true) :
    ((e.probeOk = false ∨ e.encodeReturncode ≠ 0) →
        (compress_video e).ok = false ∧ (compress_video e).inputRemains = true) ∧
    (e.probeOk = true → e.encodeReturncode = 0 →
        (compress_video e).inputRemains = false) := by
  obtain ⟨ie, isz, pk, rc, osz⟩ := e
  subst h
  constructor
  · rintro (hp | hr)
    · subst hp
      simp [compress_video]
    · cases pk <;> simp [compress_video, hr]
  · intro hp hr
    subst hp
    subst hr
    simp only [compress_video]
    split <;> simp_all
    split <;> rfl

/-- C1 amended witness: a probe failure on an existing 50-byte input returns
failure with the input still on disk. -/
theorem compress_input_disposition_witness :
    (compress_video ⟨true, 50, false, 0, 10⟩).ok = false ∧
    (compress_video ⟨true, 50, false, 0, 10⟩).inputRemains = true :=
  (compress_input_disposition ⟨true, 50, false, 0, 10⟩ rfl).1 (Or.inl rfl)

/-! ### C7 — strict size-reduction check -/

/-- C7: when the input exists, the probe succeeds and the encode exits zero,
`compress_video` returns success exactly when the output is strictly smaller
than the input. -/
theorem compress_strict_shrink (e : CompressEnv) (h1 : e.inputExists = true)
    (h2 : e.probeOk = true) (h3 : e.encodeReturncode = 0) :
    ((compress_video e).ok = true ↔ e.outputSize < e.inputSize) := by
  obtain ⟨ie, isz, pk, rc, osz⟩ := e
  subst h1
  subst h2
  subst h3
  by_cases hge : osz ≥ isz
  all_goals simp only [compress_video]
  all_goals simp [hge]
  all_goals omega

/-- C7 witness: a 10-byte input shrunk to 5 bytes succeeds. -/
theorem compress_strict_shrink_witness :
    ((compress_video ⟨true, 10, true, 0, 5⟩).ok = true ↔ (5 : Nat) < 10) :=
  compress_strict_shrink ⟨true, 10, true, 0, 5⟩ rfl rfl rfl

/-! ### C2 — order and distinctness of returned manifest URLs -/

/-- A manifest URL used in concrete scenarios. -/
def dupUrl : String := "https://cdn.example/stream.m3u8"

/-- C2 counterexample: a session in which the same manifest URL is observed
in two responses returns that URL twice — the returned list is not
duplicate-free, contradicting the distinctness part of the claim. -/
theorem extract_duplicates_not_filtered :
    extract_m3u8 (fun _ => .completed [dupUrl, dupUrl]) = [dupUrl, dupUrl] ∧
    ¬ (extract_m3u8 (fun _ => .completed [dupUrl, dupUrl])).Nodup := by
  decide

/-- C2 amended: `extract_m3u8` returns the accumulator of the attempt that
supplied the result — the observed manifest URLs in first-seen order, with
duplicates not filtered — or the empty list; every returned URL contains the
manifest suffix. -/
theorem extract_returns_observed_manifests (env : AttemptCall → AttemptOutcome) :
    (∀ u ∈ extract_m3u8 env, strIn ".m3u8" u = true) ∧
    (extract_m3u8 env = [] ∨
      (∃ rs, env ⟨60000, 1⟩ = .completed rs ∧ extract_m3u8 env = collectLinks rs) ∨
      (∃ rs, env ⟨90000, 2⟩ = .completed rs ∧ extract_m3u8 env = collectLinks rs)) := by
  have retry : ∀ henv : AttemptCall → AttemptOutcome,
      (∀ u ∈ (extract_retry henv).1, strIn ".m3u8" u = true) ∧
      ((extract_retry henv).1 = [] ∨
        (∃ rs, henv ⟨90000, 2⟩ = .completed rs ∧
          (extract_retry henv).1 = collectLinks rs)) := by
    intro henv
    unfold extract_retry
    cases h2 : henv ⟨90000, 2⟩ with
    | errored => simp [try_navigate]
    | completed rs =>
      refine ⟨?_, Or.inr ⟨rs, rfl, rfl⟩⟩
      simpa [try_navigate] using mem_collectLinks rs
  unfold extract_m3u8 extract_m3u8_run
  cases h1 : env ⟨60000, 1⟩ with
  | errored =>
    simp only [try_navigate]
    exact ⟨(retry env).1, (retry env).2.imp id (fun h => Or.inr h)⟩
  | completed rs =>
    simp only [try_navigate]
    by_cases he : (collectLinks rs).isEmpty
    · rw [if_pos he]
      exact ⟨(retry env).1, (retry env).2.imp id (fun h => Or.inr h)⟩
    · rw [if_neg he]
      exact ⟨mem_collectLinks rs, Or.inr (Or.inl ⟨rs, rfl, rfl⟩)⟩

/-- C2 amended witness: a returned URL indeed contains the manifest suffix. -/
theorem extract_returns_observed_manifests_witness :
    strIn ".m3u8" dupUrl = true :=
  (extract_returns_observed_manifests (fun _ => .completed [dupUrl])).1
    dupUrl (by decide)

/-! ### C3 — attempt policy -/

/-- C3: a non-empty attempt-1 result (60000 ms timeout) is returned at once
and attempt 2 is never called; an empty or failed attempt 1 triggers attempt
2 with a 90000 ms timeout, whose result (or `[]`) is returned. -/
theorem extract_attempt_policy (env : AttemptCall → AttemptOutcome) :
    (∀ l, try_navigate (env ⟨60000, 1⟩) = some l → l ≠ [] →
        extract_m3u8_run env = (l, [⟨60000, 1⟩])) ∧
    ((try_navigate (env ⟨60000, 1⟩)).getD [] = [] →
        extract_m3u8_run env =
          ((try_navigate (env ⟨90000, 2⟩)).getD [], [⟨60000, 1⟩, ⟨90000, 2⟩])) := by
  constructor
  · intro l hl hne
    unfold extract_m3u8_run
    rw [hl]
    simp [hne]
  · intro h
    unfold extract_m3u8_run
    cases hn : try_navigate (env ⟨60000, 1⟩) with
    | none => rfl
    | some l =>
      rw [hn] at h
      simp only [Option.getD_some] at h
      subst h
      rfl

/-- C3 witness: with attempt 1 completing on one manifest URL and attempt 2
erroring, the run returns attempt 1's list and records only the first call. -/
theorem extract_attempt_policy_witness :
    extract_m3u8_run
        (fun c => if c.attempt = 1 then .completed [dupUrl] else .errored) =
      ([dupUrl], [⟨60000, 1⟩]) :=
  (extract_attempt_policy
      (fun c => if c.attempt = 1 then .completed [dupUrl] else .errored)).1
    [dupUrl] (by decide) (by decide)

/-! ### C4 — no exception reaches the caller; empty when both attempts fail -/

/-- C4: both exception arms are modelled by `try_navigate` returning `none`,
so `extract_m3u8` is a total function into lists — the caller always
receives a list; when each attempt failed or found nothing, that list is
empty. -/
theorem extract_empty_on_double_failure (env : AttemptCall → AttemptOutcome)
    (h1 : (try_navigate (env ⟨60000, 1⟩)).getD [] = [])
    (h2 : (try_navigate (env ⟨90000, 2⟩)).getD [] = []) :
    extract_m3u8 env = [] := by
  unfold extract_m3u8 extract_m3u8_run extract_retry
  cases hn : try_navigate (env ⟨60000, 1⟩) with
  | none => simpa using h2
  | some l =>
    rw [hn] at h1
    simp only [Option.getD_some] at h1
    subst h1
    simpa using h2

/-- C4 witness: both attempts raising yields the empty list. -/
theorem extract_empty_on_double_failure_witness :
    extract_m3u8 (fun _ => .errored) = [] :=
  extract_empty_on_double_failure (fun _ => .errored) rfl rfl

/-! ### C5 — precondition rejections of /tiktok/process -/

/-- A request built from the example asset names of `main.py` lines 17-22. -/
def sampleReq : TikTokRequest :=
  ⟨"job1", "fut_bg.png", "fut_fg_borda.png", "SuperCreamy-OGAPp.ttf",
   "JackportRegularNcv-BeY3.ttf", "Sample Title", "Sample Result"⟩

/-- A filesystem with no files at all. -/
def emptyFsEnv : TikTokEnv := ⟨fun _ => false, 0, "", false⟩

/-- C5 counterexample: with the source video missing, the request is
rejected with detail `"Input video not found"`, which does not contain the
missing path `/tmp/downloads/job1_futebol.mp4` — the rejection does not name
the missing path. -/
theorem tiktok_missing_input_detail_lacks_path :
    (tiktok_process sampleReq emptyFsEnv).response =
      .notFound "Input video not found" ∧
    tiktokInputFile sampleReq = "/tmp/downloads/job1_futebol.mp4" ∧
    strIn "/tmp/downloads/job1_futebol.mp4" "Input video not found" = false := by
  decide

/-- C5 amended: every missing precondition file is rejected with a 404
before any subprocess is invoked; a missing config file is reported with a
detail naming the missing path, while a missing source video is reported
with the fixed detail `"Input video not found"`, which does not include the
path. -/
theorem tiktok_precondition_rejections (req : TikTokRequest) (env : TikTokEnv) :
    (env.fs (tiktokInputFile req) = false →
        (tiktok_process req env).response = .notFound "Input video not found" ∧
        (tiktok_process req env).command = none) ∧
    (env.fs (tiktokInputFile req) = true →
        ∀ p, (assetPaths req).find? (fun q => !env.fs q) = some p →
          (tiktok_process req env).response =
            .notFound ("Config file not found: " ++ p) ∧
          strIn p ("Config file not found: " ++ p) = true ∧
          (tiktok_process req env).command = none) := by
  constructor
  · intro h
    simp [tiktok_process, h]
  · intro h p hp
    refine ⟨?_, strIn_append "Config file not found: " p, ?_⟩ <;>
      simp [tiktok_process, h, hp]

/-- C5 amended witness: only the input video exists, so the background path
is the first missing config file and is named in the 404 detail. -/
theorem tiktok_precondition_rejections_witness :
    (tiktok_process sampleReq
        ⟨fun s => s == "/tmp/downloads/job1_futebol.mp4", 0, "", false⟩).response =
      .notFound ("Config file not found: " ++ "/app/config/fut_bg.png") ∧
    strIn "/app/config/fut_bg.png"
      ("Config file not found: " ++ "/app/config/fut_bg.png") = true ∧
    (tiktok_process sampleReq
        ⟨fun s => s == "/tmp/downloads/job1_futebol.mp4", 0, "", false⟩).command =
      none :=
  (tiktok_precondition_rejections sampleReq
      ⟨fun s => s == "/tmp/downloads/job1_futebol.mp4", 0, "", false⟩).2
    (by decide) "/app/config/fut_bg.png" (by decide)

/-! ### C6 — non-zero ffmpeg exit: error status and output cleanup -/

/-- C6: when all precondition files exist and ffmpeg exits non-zero, the
handler returns the error body (not the success body) and no file remains at
the output path when it returns. -/
theorem tiktok_nonzero_exit_cleanup (req : TikTokRequest) (env : TikTokEnv)
    (hin : env.fs (tiktokInputFile req) = true)
    (hassets : ∀ p ∈ assetPaths req, env.fs p = true)
    (hrc : env.returncode ≠ 0) :
    (tiktok_process req env).response =
      .err ("Processing failed: FFmpeg failed: " ++ env.stderr) ∧
    (tiktok_process req env).outputOnDisk = false := by
  have hfind : (assetPaths req).find? (fun q => !env.fs q) = none := by
    rw [List.find?_eq_none]
    intro p hp
    simp [hassets p hp]
  simp [tiktok_process, hin, hfind, hrc]

/-- C6 witness: every file exists, ffmpeg exits 1 with stderr `"boom"` and
had produced a partial output; the handler reports the error body and the
output path holds no file. -/
theorem tiktok_nonzero_exit_cleanup_witness :
    (tiktok_process sampleReq ⟨fun _ => true, 1, "boom", true⟩).response =
      .err ("Processing failed: FFmpeg failed: " ++ "boom") ∧
    (tiktok_process sampleReq ⟨fun _ => true, 1, "boom", true⟩).outputOnDisk =
      false :=
  tiktok_nonzero_exit_cleanup sampleReq ⟨fun _ => true, 1, "boom", true⟩ rfl
    (fun p _ => rfl) (by decide)

/-! ### C8 — /process with no extracted links -/

/-- C8: when extraction returned the empty list, `/process` answers the
error body with the no-links message, never invokes the downloader, and
creates no output file. -/
theorem process_no_links_error (id : String) (env : AttemptCall → AttemptOutcome)
    (f : String → String → Bool) (h : extract_m3u8 env = []) :
    process_video id (extract_m3u8 env) f =
      { status := "error", message := "No m3u8 links found after retries.",
        downloadedUrl := none, fileOnDisk := none } := by
  rw [h]
  rfl

/-- C8 witness: both attempts raising gives the no-links error body. -/
theorem process_no_links_error_witness :
    process_video "job1" (extract_m3u8 (fun _ => .errored)) (fun _ _ => true) =
      { status := "error", message := "No m3u8 links found after retries.",
        downloadedUrl := none, fileOnDisk := none } :=
  process_no_links_error "job1" (fun _ => .errored) (fun _ _ => true) rfl

/-! ### C9 — only the first link is downloaded -/

/-- C9: when extraction returned two or more manifest URLs, the downloader
is invoked on the first one only; the later URLs are ignored. -/
theorem process_uses_first_link (id u v : String) (rest : List String)
    (f : String → String → Bool) :
    (process_video id (u :: v :: rest) f).downloadedUrl = some u := by
  unfold process_video
  dsimp only
  split <;> rfl

/-! ### C10 — asset paths are not confined to the config directory -/

/-- A request whose background asset name is an absolute path outside the
config directory. -/
def escapeReq : TikTokRequest :=
  ⟨"job1", "/etc/passwd", "fut_fg_borda.png", "SuperCreamy-OGAPp.ttf",
   "JackportRegularNcv-BeY3.ttf", "Sample Title", "Sample Result"⟩

/-- A filesystem on which every path exists. -/
def allFilesEnv : TikTokEnv := ⟨fun _ => true, 0, "", true⟩

/-- C10: joining the caller-supplied name `/etc/passwd` onto the config
directory yields `/etc/passwd` itself, which does not resolve inside
`/app/config`; the existence check passes on it and that very path is handed
to the external tool in the ffmpeg argument list. -/
theorem tiktok_join_escapes_config_dir :
    joinPath CONFIG_DIR "/etc/passwd" = "/etc/passwd" ∧
    resolvesInside CONFIG_DIR "/etc/passwd" = false ∧
    (tiktok_process escapeReq allFilesEnv).command.isSome = true ∧
    "/etc/passwd" ∈ (tiktok_process escapeReq allFilesEnv).command.getD [] := by
  decide

end FastapiClaw
